import Mathlib

/-!
Shallow embedding of the budget ledger in src/data.rs.

Monetary amounts (f32 in the source) are modelled as rationals, timestamps
(u64 milliseconds) as naturals.  `Data.update` in the source computes the
elapsed whole-day count from the wall clock; here it takes that count and the
new timestamp as explicit parameters.  The HashMap / HashSet tables are
modelled as association lists in insertion order; the source iterates hash
sets in unspecified order, and none of the verified claims depends on that
order.
-/

/-- One committed spend, mirroring struct HistoryItem in src/data.rs. -/
structure HistoryItem where
  amount : ℚ
  reason : String
  specific : Option String
  time : ℕ
deriving DecidableEq, Repr

/-- The persisted ledger, mirroring struct Data in src/data.rs. -/
structure Data where
  version : Option ℚ
  history : List HistoryItem
  redo_stack : List HistoryItem
  balance : ℚ
  debt : ℚ
  last_updated : ℕ
  rate : Option ℚ
  cringe_factors : List (String × ℚ)
  synonyms : List (String × List String)
deriving DecidableEq, Repr

/-- Association-list lookup, mirroring HashMap::get / contains_key. -/
def lookupStr {α : Type} : List (String × α) → String → Option α
  | [], _ => none
  | (k2, v) :: rest, k => if k2 = k then some v else lookupStr rest k

/-- Association-list insert, mirroring HashMap::insert (overwrite). -/
def insertStr {α : Type} : List (String × α) → String → α → List (String × α)
  | [], k, v => [(k, v)]
  | (k2, v2) :: rest, k, v =>
      if k2 = k then (k, v) :: rest else (k2, v2) :: insertStr rest k v

/-- to_ascii_lowercase on one character. -/
def asciiLowerChar (c : Char) : Char :=
  if 65 ≤ c.toNat ∧ c.toNat ≤ 90 then Char.ofNat (c.toNat + 32) else c

/-- String::to_ascii_lowercase. -/
def asciiLower (s : String) : String := ⟨s.data.map asciiLowerChar⟩

namespace Data

/-- Data::update (src/data.rs lines 119-140).  `elapsed` is the nonnegative
whole-day difference the source derives from the clock (the source asserts it
is nonnegative), `now` the new timestamp. -/
def update (d : Data) (rate : ℚ) (elapsed : ℕ) (now : ℕ) : Data :=
  -- net_gains in the source is rate * elapsed, written out below because the
  -- source mutates it in place along each branch
  if d.debt > 0 then
    if d.debt > rate * (elapsed : ℚ) / 2 then
      { d with debt := d.debt - rate * (elapsed : ℚ) / 2,
               balance := d.balance + rate * (elapsed : ℚ) / 2,
               last_updated := now }
    else
      { d with debt := 0,
               balance := d.balance + (rate * (elapsed : ℚ) - d.debt),
               last_updated := now }
  else
    { d with balance := d.balance + rate * (elapsed : ℚ), last_updated := now }

/-- Data::has_synonyms. -/
def has_synonyms (d : Data) (key : String) : Bool :=
  (lookupStr d.synonyms (asciiLower key)).isSome

/-- Data::get_synonyms: the stored set plus the key itself. -/
def get_synonyms (d : Data) (key : String) : List String :=
  let k := asciiLower key
  let s := (lookupStr d.synonyms k).getD []
  if k ∈ s then s else s ++ [k]

/-- First stored cringe factor found while iterating a synonym set. -/
def firstFactor (cf : List (String × ℚ)) : List String → Option ℚ
  | [] => none
  | s :: rest =>
      match lookupStr cf s with
      | some f => some f
      | none => firstFactor cf rest

/-- Data::get_cringiness (src/data.rs lines 156-168). -/
def get_cringiness (d : Data) (keyword : String) : ℚ :=
  let k := asciiLower keyword
  if d.has_synonyms k then
    (firstFactor d.cringe_factors (d.get_synonyms k)).getD 1
  else 1

/-- Data::set_cringe (src/data.rs lines 142-154). -/
def set_cringe (d : Data) (keyword : String) (factor : ℚ) : Data :=
  let k := asciiLower keyword
  if d.has_synonyms k then
    match (d.get_synonyms k).find? (fun s => (lookupStr d.cringe_factors s).isSome) with
    | some syn => { d with cringe_factors := insertStr d.cringe_factors syn factor }
    | none => { d with cringe_factors := insertStr d.cringe_factors k factor }
  else { d with cringe_factors := insertStr d.cringe_factors k factor }

/-- Data::total_balance: the balance minus the debts. -/
def total_balance (d : Data) : ℚ := d.balance - d.debt

end Data

/-- The derived PartialEq on Data: structural equality on every field except
last_updated (marked ignore in the source). -/
def dataEq (a b : Data) : Bool :=
  decide (a.version = b.version ∧ a.history = b.history ∧
          a.redo_stack = b.redo_stack ∧ a.balance = b.balance ∧
          a.debt = b.debt ∧ a.rate = b.rate ∧
          a.cringe_factors = b.cringe_factors ∧ a.synonyms = b.synonyms)

namespace Budget

/-- Budget::spend (src/data.rs lines 293-315).  The non-positive-amount check
in the source only prints a warning and does not return, so the computation
continues; the refusal branch returns the ledger unchanged. -/
def spend (d : Data) (amount : ℚ) (reason : String) (specific : Option String)
    (loan : Bool) (now : ℕ) : Data :=
  let amount_scaled := amount * d.get_cringiness (asciiLower reason)
  let new_balance := d.balance - amount_scaled
  if new_balance < 0 ∧ ¬loan then d
  else
    { d with history := d.history ++ [⟨amount_scaled, reason, specific, now⟩],
             balance := new_balance }

/-- Budget::undo (src/data.rs lines 258-268); none models the panic on an
empty history. -/
def undo (d : Data) : Option Data :=
  match d.history.getLast? with
  | none => none
  | some last =>
      some { d with history := d.history.dropLast,
                    balance := d.balance + last.amount,
                    redo_stack := d.redo_stack ++ [last] }

/-- Budget::redo (src/data.rs lines 270-280); none models the panic on an
empty redo stack. -/
def redo (d : Data) : Option Data :=
  match d.redo_stack.getLast? with
  | none => none
  | some last =>
      some { d with redo_stack := d.redo_stack.dropLast,
                    balance := d.balance - last.amount,
                    history := d.history ++ [last] }

/-- Budget::garnish (src/data.rs lines 282-291). -/
def garnish (d : Data) : Data :=
  if d.balance ≥ 0 then d
  else { d with debt := d.debt - d.balance, balance := 0 }

end Budget

/-- Outcome classification of Budget::verify_against, one constructor per
return site in the source. -/
inductive VerifyResult where
  | matched          -- the two ledgers compare equal
  | diverge          -- histories diverge by more than one entry
  | undoOkay         -- old has one extra entry, balances agree
  | undoMismatch     -- old has one extra entry, balances disagree
  | oldIncompatible  -- old longer but not a superset
  | newOkay          -- new has one extra entry, balances agree
  | newMismatch      -- new has one extra entry, balances disagree
  | newIncompatible  -- new longer but not a superset
  | configOkay       -- same history and total balance, config drift
  | unknown          -- unknown verification failure
deriving DecidableEq, Repr

/-- The boolean the source returns for each classification. -/
def vrOk : VerifyResult → Bool
  | .matched => true
  | .undoOkay => true
  | .newOkay => true
  | .configOkay => true
  | _ => false

/-- The remote ledger re-accrued with the local rate, as verify_against
prepares it before comparing. -/
def updatedRemote (old_d : Data) (r : ℚ) (elapsed now : ℕ) : Data :=
  ({ old_d with rate := some r }).update r elapsed now

/-- Budget::verify_against (src/data.rs lines 455-508).  `self_d` is the
local ledger, `old_d` the freshly fetched remote one; `elapsed` and `now`
feed the internal re-accrual.  none models the panic when the local rate is
absent (the source unwraps it). -/
def Budget.verify_against (self_d old_d : Data) (elapsed now : ℕ) :
    Option VerifyResult :=
  match self_d.rate with
  | none => none
  | some r =>
    let oldU := updatedRemote old_d r elapsed now
    if dataEq self_d oldU then some .matched
    else if (((oldU.history.length : ℤ) - (self_d.history.length : ℤ)).natAbs > 2) ∨
            (((oldU.redo_stack.length : ℤ) - (self_d.redo_stack.length : ℤ)).natAbs > 2) then
      some .diverge
    else if oldU.history.length > 0 ∧ oldU.history.length > self_d.history.length then
      if oldU.history.dropLast = self_d.history then
        match oldU.history.getLast? with
        | some last =>
            if self_d.total_balance =
                (Data.total_balance { oldU with balance := oldU.balance + last.amount }) then
              some .undoOkay
            else some .undoMismatch
        | none => some .unknown
      else some .oldIncompatible
    else if self_d.history.length > 0 ∧ self_d.history.length > oldU.history.length then
      if self_d.history.dropLast = oldU.history then
        match self_d.history.getLast? with
        | some last =>
            if self_d.total_balance =
                (Data.total_balance { oldU with balance := oldU.balance - last.amount }) then
              some .newOkay
            else some .newMismatch
        | none => some .unknown
      else some .newIncompatible
    else if self_d.history = oldU.history ∧ self_d.total_balance = oldU.total_balance then
      some .configOkay
    else some .unknown

/-! ## Concrete ledgers used by witnesses and counterexamples -/

def foodStr : String := "food"

/-- A fresh ledger as Data::new builds it (balance 10, rate 5, empty history). -/
def sample1 : Data :=
  { version := some 1, history := [], redo_stack := [], balance := 10, debt := 0,
    last_updated := 0, rate := some 5, cringe_factors := [], synonyms := [] }

/-- A ledger carrying debt 5, for the accrual counterexample. -/
def d9 : Data :=
  { version := some 1, history := [], redo_stack := [], balance := 10, debt := 5,
    last_updated := 0, rate := some 5, cringe_factors := [], synonyms := [] }

/-- Two history entries shared by the reconciliation scenarios. -/
def itemA : HistoryItem := ⟨3, "a", none, 1⟩

def itemB : HistoryItem := ⟨4, "b", none, 2⟩

def itemC : HistoryItem := ⟨7, "c", none, 3⟩

/-- A ledger with a one-entry history, for the undo/redo witness. -/
def s6 : Data :=
  { version := some 1, history := [itemA], redo_stack := [], balance := 7, debt := 0,
    last_updated := 0, rate := some 5, cringe_factors := [], synonyms := [] }

/-- A ledger with negative balance, for the garnish witness. -/
def s7 : Data :=
  { version := some 1, history := [], redo_stack := [], balance := -3, debt := 1,
    last_updated := 0, rate := some 5, cringe_factors := [], synonyms := [] }

/-! ## Claims -/

/-- Claim C1: the source prints the non-positive-amount warning but has no
early return, so the spend goes on.  On a fresh ledger, spend(-5, food,
loan=false) appends a history entry of amount -5 and raises the balance to
15 instead of leaving the ledger unchanged. -/
theorem C1_spend_nonpositive_mutates :
    Budget.spend sample1 (-5) foodStr none false 7 ≠ sample1 ∧
    (Budget.spend sample1 (-5) foodStr none false 7).balance = 15 ∧
    (Budget.spend sample1 (-5) foodStr none false 7).history =
      [⟨-5, foodStr, none, 7⟩] := by
  norm_num [Budget.spend, sample1, Data.get_cringiness, Data.has_synonyms,
    asciiLower, foodStr, lookupStr]

/-- Claim C4: update computes gross = r * d and applies the garnishment
policy: with debt above half the gross, half the gross repays debt and half
lands on the balance; with positive debt at most half the gross, debt clears
and the remainder lands on the balance; with zero debt the full gross lands
on the balance; last_updated becomes now in every case. -/
theorem C4_update_garnishment (d : Data) (r : ℚ) (e n : ℕ) :
    (d.update r e n).last_updated = n ∧
    (d.debt > 0 → d.debt > r * (e : ℚ) / 2 →
      (d.update r e n).debt = d.debt - r * (e : ℚ) / 2 ∧
      (d.update r e n).balance = d.balance + r * (e : ℚ) / 2) ∧
    (0 < d.debt → d.debt ≤ r * (e : ℚ) / 2 →
      (d.update r e n).debt = 0 ∧
      (d.update r e n).balance = d.balance + (r * (e : ℚ) - d.debt)) ∧
    (d.debt = 0 →
      (d.update r e n).debt = 0 ∧
      (d.update r e n).balance = d.balance + r * (e : ℚ)) := by
  unfold Data.update
  refine ⟨by split_ifs <;> rfl, fun h1 h2 => ?_, fun h1 h2 => ?_, fun h0 => ?_⟩
  · rw [if_pos h1, if_pos h2]
    exact ⟨rfl, rfl⟩
  · rw [if_pos h1, if_neg (not_lt.mpr h2)]
    exact ⟨rfl, rfl⟩
  · rw [if_neg (by rw [h0]; exact lt_irrefl 0)]
    exact ⟨h0, rfl⟩

/-- Witness for C4 at debt 5, rate 5, one elapsed day: gross 5, debt above
half the gross, so debt drops to 5/2 and balance gains 5/2. -/
theorem C4_update_garnishment_witness :
    (d9.update 5 1 3).last_updated = 3 ∧
    (d9.update 5 1 3).debt = d9.debt - 5 * (1 : ℚ) / 2 ∧
    (d9.update 5 1 3).balance = d9.balance + 5 * (1 : ℚ) / 2 := by
  have h := C4_update_garnishment d9 5 1 3
  have h2 := h.2.1 (by norm_num [d9]) (by norm_num [d9])
  exact ⟨h.1, h2.1, h2.2⟩

/-- Claim C7: garnish leaves the ledger unchanged when the balance is
nonnegative; otherwise it moves the whole negative magnitude into debt and
zeroes the balance, so the balance is nonnegative afterwards. -/
theorem C7_garnish (d : Data) :
    (d.balance ≥ 0 → Budget.garnish d = d) ∧
    (d.balance < 0 →
      (Budget.garnish d).debt = d.debt - d.balance ∧
      (Budget.garnish d).balance = 0) ∧
    0 ≤ (Budget.garnish d).balance := by
  unfold Budget.garnish
  refine ⟨fun h => if_pos h, fun h => ?_, ?_⟩
  · rw [if_neg (not_le.mpr h)]
    exact ⟨rfl, rfl⟩
  · split_ifs with h
    · exact h
    · exact le_refl 0

/-- Witness for C7 at balance -3, debt 1: garnish yields debt 4, balance 0. -/
theorem C7_garnish_witness :
    (Budget.garnish s7).debt = s7.debt - s7.balance ∧
    (Budget.garnish s7).balance = 0 :=
  (C7_garnish s7).2.1 (by norm_num [s7])

/-- Claim C9 as stated is false: with a negative rate the garnishment branch
subtracts a negative half-gross, so the debt increases.  At rate -2 over one
day on debt 5, update raises the debt to 6. -/
theorem C9_counterexample :
    d9.debt = 5 ∧ (d9.update (-2) 1 0).debt = 6 := by
  norm_num [d9, Data.update]

/-- Claim C9 (amended with rate r ≥ 0): update raises total_balance by
exactly r * d however the garnishment splits the gross, the debt never
increases, and a nonnegative debt stays nonnegative. -/
theorem C9_update_total_balance (d : Data) (r : ℚ) (e n : ℕ) (hr : 0 ≤ r) :
    (d.update r e n).total_balance = d.total_balance + r * (e : ℚ) ∧
    (d.update r e n).debt ≤ d.debt ∧
    (0 ≤ d.debt → 0 ≤ (d.update r e n).debt) := by
  have he : (0 : ℚ) ≤ r * (e : ℚ) := mul_nonneg hr (by positivity)
  by_cases h1 : d.debt > 0
  · by_cases h2 : d.debt > r * (e : ℚ) / 2
    · unfold Data.update Data.total_balance
      rw [if_pos h1, if_pos h2]
      exact ⟨by dsimp only; ring, by dsimp only; linarith, fun _ => by dsimp only; linarith⟩
    · unfold Data.update Data.total_balance
      rw [if_pos h1, if_neg h2]
      exact ⟨by dsimp only; ring, by dsimp only; linarith, fun _ => by dsimp only; linarith⟩
  · unfold Data.update Data.total_balance
    rw [if_neg h1]
    exact ⟨by dsimp only; ring, by dsimp only; linarith, fun hd => by dsimp only; linarith⟩

/-- Witness for C9 at debt 5, rate 5, one elapsed day. -/
theorem C9_update_total_balance_witness :
    (d9.update 5 1 3).total_balance = d9.total_balance + 5 * (1 : ℚ) ∧
    (d9.update 5 1 3).debt ≤ d9.debt ∧
    0 ≤ (d9.update 5 1 3).debt := by
  have h := C9_update_total_balance d9 5 1 3 (by norm_num)
  exact ⟨by push_cast at h ⊢; exact h.1, h.2.1, h.2.2 (by norm_num [d9])⟩

/-- Claim C10: garnish preserves total_balance exactly and never touches
history, redo_stack, rate, cringe_factors or synonyms. -/
theorem C10_garnish_frame (d : Data) :
    (Budget.garnish d).total_balance = d.total_balance ∧
    (Budget.garnish d).history = d.history ∧
    (Budget.garnish d).redo_stack = d.redo_stack ∧
    (Budget.garnish d).rate = d.rate ∧
    (Budget.garnish d).cringe_factors = d.cringe_factors ∧
    (Budget.garnish d).synonyms = d.synonyms := by
  unfold Budget.garnish Data.total_balance
  split_ifs
  · exact ⟨rfl, rfl, rfl, rfl, rfl, rfl⟩
  · exact ⟨by dsimp only; ring, rfl, rfl, rfl, rfl, rfl⟩

/-! ## Helper lemmas on ascii lowering -/

/-- Char.ofNat round-trips on valid code points. -/
theorem charOfNat_toNat (n : ℕ) (h : n.isValidChar) : (Char.ofNat n).toNat = n := by
  simp [Char.ofNat, dif_pos h, Char.ofNatAux, Char.toNat, UInt32.toNat, UInt32.ofNatCore]

/-- Lowering a character twice is the same as lowering it once. -/
theorem asciiLowerChar_idem (c : Char) :
    asciiLowerChar (asciiLowerChar c) = asciiLowerChar c := by
  unfold asciiLowerChar
  by_cases h : 65 ≤ c.toNat ∧ c.toNat ≤ 90
  · rw [if_pos h]
    have hv : (c.toNat + 32).isValidChar := Or.inl (by omega)
    have ht : (Char.ofNat (c.toNat + 32)).toNat = c.toNat + 32 := charOfNat_toNat _ hv
    rw [if_neg (by rw [ht]; omega)]
  · rw [if_neg h, if_neg h]

/-- Lowering a string twice is the same as lowering it once. -/
theorem asciiLower_idem (s : String) : asciiLower (asciiLower s) = asciiLower s := by
  unfold asciiLower
  refine congrArg String.mk ?_
  show (s.data.map asciiLowerChar).map asciiLowerChar = s.data.map asciiLowerChar
  rw [List.map_map]
  exact List.map_congr_left (fun c _ => asciiLowerChar_idem c)

/-! ## Claims C5, C6, C8 -/

/-- Claim C5: with a neutral (1) effective multiplier for the reason,
spending balance + 0.01 without the loan flag is refused with the ledger left
untouched, while with the loan flag it appends exactly one history entry and
leaves the balance negative. -/
theorem C5_spend_boundary (d : Data) (reason : String) (sp : Option String)
    (n : ℕ) (hneutral : d.get_cringiness (asciiLower reason) = 1) :
    Budget.spend d (d.balance + 1/100) reason sp false n = d ∧
    (Budget.spend d (d.balance + 1/100) reason sp true n).history =
      d.history ++ [⟨d.balance + 1/100, reason, sp, n⟩] ∧
    (Budget.spend d (d.balance + 1/100) reason sp true n).balance < 0 := by
  have hscaled : (d.balance + 1/100) * d.get_cringiness (asciiLower reason) =
      d.balance + 1/100 := by rw [hneutral, mul_one]
  have hnb : d.balance - (d.balance + 1/100) = -(1/100 : ℚ) := by ring
  refine ⟨?_, ?_, ?_⟩ <;>
    simp only [Budget.spend, hscaled, hnb] <;>
    norm_num

/-- Witness for C5 on a fresh ledger (balance 10, no synonyms): spending
10.01 is refused without the loan flag and committed with it. -/
theorem C5_spend_boundary_witness :
    Budget.spend sample1 (sample1.balance + 1/100) foodStr none false 4 = sample1 ∧
    (Budget.spend sample1 (sample1.balance + 1/100) foodStr none true 4).history =
      sample1.history ++ [⟨sample1.balance + 1/100, foodStr, none, 4⟩] ∧
    (Budget.spend sample1 (sample1.balance + 1/100) foodStr none true 4).balance < 0 :=
  C5_spend_boundary sample1 foodStr none 4
    (by norm_num [Data.get_cringiness, Data.has_synonyms, sample1, lookupStr])

/-- Claim C6: on a ledger with non-empty history, redo after undo restores
the ledger exactly (every field; the operations do not touch timestamps). -/
theorem C6_undo_redo_inverse (d : Data) (h : d.history ≠ []) :
    (Budget.undo d).bind Budget.redo = some d := by
  rcases List.eq_nil_or_concat d.history with hnil | ⟨l, a, hla⟩
  · exact absurd hnil h
  · rw [List.concat_eq_append] at hla
    unfold Budget.undo Budget.redo
    rw [hla]
    simp only [List.getLast?_concat, List.dropLast_concat, Option.some_bind]
    rw [← hla]
    have hb : d.balance + a.amount - a.amount = d.balance := by ring
    rw [hb]

/-- Witness for C6 on a one-entry history. -/
theorem C6_undo_redo_inverse_witness :
    (Budget.undo s6).bind Budget.redo = some s6 :=
  C6_undo_redo_inverse s6 (by simp [s6])

/-- The case-folded keyword used in the C8 witness. -/
def coffeeCap : String := "Coffee"

/-- A ledger that stores a cringe factor under a keyword that has no
synonyms entry. -/
def s8 : Data :=
  { version := some 1, history := [], redo_stack := [], balance := 10, debt := 0,
    last_updated := 0, rate := some 5,
    cringe_factors := [("coffee", 2)], synonyms := [] }

/-- Claim C8: a keyword with no entry in the synonyms table always resolves
to the neutral multiplier 1, even when cringe_factors stores a factor
directly under the case-folded keyword. -/
theorem C8_cringe_without_synonyms (d : Data) (k : String) (f : ℚ)
    (hsyn : lookupStr d.synonyms (asciiLower k) = none)
    (_hfac : lookupStr d.cringe_factors (asciiLower k) = some f) :
    d.get_cringiness k = 1 := by
  unfold Data.get_cringiness Data.has_synonyms
  simp only [asciiLower_idem, hsyn, Option.isSome_none, Bool.false_eq_true, if_false]

/-- Witness for C8: factor 2 stored under the key, no synonyms, multiplier
still 1. -/
theorem C8_cringe_without_synonyms_witness : s8.get_cringiness coffeeCap = 1 :=
  C8_cringe_without_synonyms s8 coffeeCap 2 (by decide) (by decide)

/-! ## Reconciliation scenarios -/

/-- The remote ledger of the reconciliation scenarios: history [A, B],
balance 10, no debt. -/
def w2Remote : Data :=
  { version := some 1, history := [itemA, itemB], redo_stack := [], balance := 10, debt := 0,
    last_updated := 0, rate := some 5, cringe_factors := [], synonyms := [] }

/-- The ledger Budget::undo produces from w2Remote: history [A], balance
10 + B.amount, B pushed on the redo stack. -/
def w2Local : Data :=
  { version := some 1, history := [itemA], redo_stack := [itemB], balance := 14, debt := 0,
    last_updated := 0, rate := some 5, cringe_factors := [], synonyms := [] }

/-- Like w2Local but with three extra redo-stack entries, exercising the
redo-stack divergence bound. -/
def c2Local : Data :=
  { version := some 1, history := [itemA], redo_stack := [itemB, itemC, itemA], balance := 14,
    debt := 0, last_updated := 0, rate := some 5, cringe_factors := [], synonyms := [] }

/-- A local ledger whose history [A, C] diverges from w2Remote's [A, B] at
equal length. -/
def c3Local : Data :=
  { version := some 1, history := [itemA, itemC], redo_stack := [], balance := 10, debt := 0,
    last_updated := 0, rate := some 5, cringe_factors := [], synonyms := [] }

/-- Claim C2 as stated is false: the premises only constrain the histories,
but verify_against also bounds the redo-stack length difference.  Here the
remote has one extra history entry, the prefixes match and the balances
agree after adding the removed amount back, yet the local redo stack is
three entries longer, so verify_against reports divergence (false) where the
claim requires true. -/
theorem C2_verify_undo_detection_cex :
    (updatedRemote w2Remote 5 0 0).history = c2Local.history ++ [itemB] ∧
    c2Local.total_balance = (updatedRemote w2Remote 5 0 0).balance + itemB.amount -
      (updatedRemote w2Remote 5 0 0).debt ∧
    Budget.verify_against c2Local w2Remote 0 0 = some VerifyResult.diverge ∧
    (Budget.verify_against c2Local w2Remote 0 0).map vrOk = some false := by
  refine ⟨?_, ?_, ?_, ?_⟩ <;>
    norm_num [updatedRemote, Data.update, w2Remote, c2Local, itemA, itemB, itemC,
      Data.total_balance, Budget.verify_against, dataEq, vrOk]

/-- Claim C2 (amended: the local rate is set and the redo-stack lengths
differ by at most two): when the re-accrued remote history is the local
history plus one trailing entry, verify_against succeeds exactly when the
local total balance equals the re-accrued remote total balance after adding
the removed entry's amount back to its balance. -/
theorem C2_verify_undo_detection (self_d old_d : Data) (r : ℚ) (e n : ℕ)
    (last : HistoryItem)
    (hrate : self_d.rate = some r)
    (hhist : (updatedRemote old_d r e n).history = self_d.history ++ [last])
    (hredo : ((((updatedRemote old_d r e n).redo_stack.length : ℤ) -
              ((self_d.redo_stack.length : ℤ))).natAbs ≤ 2)) :
    (Budget.verify_against self_d old_d e n).map vrOk =
      some (decide (self_d.total_balance =
        (updatedRemote old_d r e n).balance + last.amount -
        (updatedRemote old_d r e n).debt)) := by
  have hlen : (updatedRemote old_d r e n).history.length = self_d.history.length + 1 := by
    rw [hhist, List.length_append, List.length_singleton]
  have hne : ¬ (self_d.history = (updatedRemote old_d r e n).history) := by
    intro hc
    have h2 := congrArg List.length hc
    rw [hlen] at h2
    omega
  have hdataEq : ¬ (dataEq self_d (updatedRemote old_d r e n) = true) := by
    simp only [dataEq, decide_eq_true_eq]
    intro hc
    exact hne hc.2.1
  unfold Budget.verify_against
  rw [hrate]
  dsimp only
  rw [if_neg hdataEq]
  have hbound : ¬ ((((updatedRemote old_d r e n).history.length : ℤ) -
        (self_d.history.length : ℤ)).natAbs > 2 ∨
      (((updatedRemote old_d r e n).redo_stack.length : ℤ) -
        (self_d.redo_stack.length : ℤ)).natAbs > 2) := by
    rw [hlen]
    push_cast
    omega
  rw [if_neg hbound]
  have hgt : (updatedRemote old_d r e n).history.length > 0 ∧
      (updatedRemote old_d r e n).history.length > self_d.history.length := by
    rw [hlen]
    omega
  rw [if_pos hgt]
  have hdrop : (updatedRemote old_d r e n).history.dropLast = self_d.history := by
    rw [hhist, List.dropLast_concat]
  rw [if_pos hdrop]
  have hlast : (updatedRemote old_d r e n).history.getLast? = some last := by
    rw [hhist]
    exact List.getLast?_concat _
  rw [hlast]
  simp only [Data.total_balance]
  by_cases hc : self_d.balance - self_d.debt =
      (updatedRemote old_d r e n).balance + last.amount - (updatedRemote old_d r e n).debt
  · rw [if_pos hc]
    simp [vrOk, hc]
  · rw [if_neg hc]
    simp [vrOk, hc]

/-- Witness for C2: the local ledger is exactly what undo produces from a
copy of the remote (history [A], balance 10 + B.amount) and reconciliation
succeeds. -/
theorem C2_verify_undo_detection_witness :
    Budget.undo w2Remote = some w2Local ∧
    (Budget.verify_against w2Local w2Remote 0 0).map vrOk = some true := by
  constructor
  · norm_num [Budget.undo, w2Remote, w2Local, itemA, itemB]
  · have h := C2_verify_undo_detection w2Local w2Remote 5 0 0 itemB
      (by norm_num [w2Local])
      (by norm_num [updatedRemote, Data.update, w2Remote, w2Local])
      (by norm_num [updatedRemote, Data.update, w2Remote, w2Local])
    rw [h]
    norm_num [updatedRemote, Data.update, w2Remote, w2Local, itemB, Data.total_balance]

/-- Claim C3 as stated is false in its classification: with remote history
[A, B] and local history [A, C] the histories are equal-length and
divergent, verify_against does return false, but the equal-length case falls
through both prefix branches and lands on the unknown-failure return, not on
an "incompatible" classification. -/
theorem C3_verify_equal_length_cex :
    c3Local.history.length = w2Remote.history.length ∧
    c3Local.history ≠ w2Remote.history ∧
    Budget.verify_against c3Local w2Remote 0 0 = some VerifyResult.unknown ∧
    Budget.verify_against c3Local w2Remote 0 0 ≠ some VerifyResult.oldIncompatible ∧
    Budget.verify_against c3Local w2Remote 0 0 ≠ some VerifyResult.newIncompatible := by
  have hres : Budget.verify_against c3Local w2Remote 0 0 = some VerifyResult.unknown := by
    norm_num [updatedRemote, Data.update, w2Remote, c3Local, itemA, itemB, itemC,
      Data.total_balance, Budget.verify_against, dataEq, vrOk]
  refine ⟨by decide, by decide, hres, by rw [hres]; decide, by rw [hres]; decide⟩

/-- Claim C3 (amended: the failure is classified as an unknown verification
failure, not as "incompatible"): for histories of equal nonzero length that
differ in content, verify_against returns false, and whenever the redo-stack
lengths differ by at most two the result is the unknown-failure
classification. -/
theorem C3_verify_equal_length (self_d old_d : Data) (r : ℚ) (e n : ℕ)
    (hrate : self_d.rate = some r)
    (hlen : (updatedRemote old_d r e n).history.length = self_d.history.length)
    (_hpos : self_d.history ≠ [])
    (hne : self_d.history ≠ (updatedRemote old_d r e n).history) :
    (Budget.verify_against self_d old_d e n).map vrOk = some false ∧
    ((((updatedRemote old_d r e n).redo_stack.length : ℤ) -
        (self_d.redo_stack.length : ℤ)).natAbs ≤ 2 →
      Budget.verify_against self_d old_d e n = some VerifyResult.unknown) := by
  have hdataEq : ¬ (dataEq self_d (updatedRemote old_d r e n) = true) := by
    simp only [dataEq, decide_eq_true_eq]
    intro hc
    exact hne hc.2.1
  by_cases hredo : (((updatedRemote old_d r e n).redo_stack.length : ℤ) -
      (self_d.redo_stack.length : ℤ)).natAbs ≤ 2
  · have hres : Budget.verify_against self_d old_d e n = some VerifyResult.unknown := by
      unfold Budget.verify_against
      rw [hrate]
      dsimp only
      rw [if_neg hdataEq]
      have hbound : ¬ ((((updatedRemote old_d r e n).history.length : ℤ) -
            (self_d.history.length : ℤ)).natAbs > 2 ∨
          (((updatedRemote old_d r e n).redo_stack.length : ℤ) -
            (self_d.redo_stack.length : ℤ)).natAbs > 2) := by
        rw [hlen]
        omega
      rw [if_neg hbound]
      have h4 : ¬ ((updatedRemote old_d r e n).history.length > 0 ∧
          (updatedRemote old_d r e n).history.length > self_d.history.length) := by
        rw [hlen]
        omega
      rw [if_neg h4]
      have h5 : ¬ (self_d.history.length > 0 ∧
          self_d.history.length > (updatedRemote old_d r e n).history.length) := by
        rw [hlen]
        omega
      rw [if_neg h5]
      have h6 : ¬ (self_d.history = (updatedRemote old_d r e n).history ∧
          self_d.total_balance = (updatedRemote old_d r e n).total_balance) :=
        fun hc => hne hc.1
      rw [if_neg h6]
    exact ⟨by rw [hres]; rfl, fun _ => hres⟩
  · have hres : Budget.verify_against self_d old_d e n = some VerifyResult.diverge := by
      unfold Budget.verify_against
      rw [hrate]
      dsimp only
      rw [if_neg hdataEq]
      have hbound : ((((updatedRemote old_d r e n).history.length : ℤ) -
            (self_d.history.length : ℤ)).natAbs > 2 ∨
          (((updatedRemote old_d r e n).redo_stack.length : ℤ) -
            (self_d.redo_stack.length : ℤ)).natAbs > 2) := Or.inr (by omega)
      rw [if_pos hbound]
    exact ⟨by rw [hres]; rfl, fun hcon => absurd hcon hredo⟩

/-- Witness for C3 on the [A, B] vs [A, C] pair. -/
theorem C3_verify_equal_length_witness :
    (Budget.verify_against c3Local w2Remote 0 0).map vrOk = some false ∧
    ((((updatedRemote w2Remote 5 0 0).redo_stack.length : ℤ) -
        (c3Local.redo_stack.length : ℤ)).natAbs ≤ 2 →
      Budget.verify_against c3Local w2Remote 0 0 = some VerifyResult.unknown) :=
  C3_verify_equal_length c3Local w2Remote 5 0 0
    (by norm_num [c3Local])
    (by norm_num [updatedRemote, Data.update, w2Remote, c3Local])
    (by decide)
    (by norm_num [updatedRemote, Data.update, w2Remote, c3Local, itemA, itemB, itemC])
